import Mathlib

/-!
Shallow embedding of the channel-handshake core of the yui-relayer fork under
verification.  The repository contains two variants of the channel code, called
V0 (the `slog` variant, `src/unnamed/part_000`) and V1 (the `zap` variant,
`src/unnamed/part_001`) below, plus the strategy runner (`src/unnamed/part_002`)
and the `ChainI` interface (`src/core/chain.go`).  Effectful calls into the
chain adapters are answered by explicit oracle records; a Go `panic` is
modelled as a distinguished `fatal` outcome.
-/

/-- Error values (`error` in Go) are modelled as strings. -/
abbrev Err := String

/-- Light-client headers are opaque to the channel code; modelled as numbers. -/
abbrev Header := Nat

/-- Signer addresses (`sdk.AccAddress`) are opaque to the channel code. -/
abbrev Addr := String

/-- Channel handshake state, ibc-go `chantypes.State`. -/
inductive ChanState where
  | UNINITIALIZED
  | INIT
  | TRYOPEN
  | OPEN
  | CLOSED
deriving DecidableEq, Repr

/-- The Go `State.String()` rendering used by the `default:` panic message. -/
def ChanState.name : ChanState → String
  | .UNINITIALIZED => "UNINITIALIZED"
  | .INIT => "INIT"
  | .TRYOPEN => "TRYOPEN"
  | .OPEN => "OPEN"
  | .CLOSED => "CLOSED"

/-- Channel ordering, ibc-go `chantypes.Order`. -/
inductive ChanOrder where
  | NONE
  | UNORDERED
  | ORDERED
deriving DecidableEq, Repr

/-- Modelled from the spec: the per-side path identifiers of §3 "Chain Identity"
and §6 (`Path()→` clientID, channelID, portID, connectionID); the `PathEnd`
type itself is not among the provided files. -/
structure PathEnd where
  clientID : String
  connectionID : String
  channelID : String
  portID : String
deriving DecidableEq, Repr

/-- The state part of an on-chain channel record that the handshake code reads
(`chantypes.Channel`; only its `State` field is consulted). -/
structure Channel where
  state : ChanState
deriving DecidableEq, Repr

/-- Result of one channel query (`chantypes.QueryChannelResponse`): the channel
record plus the proof height at which it was observed. -/
structure QueryChannelResponse where
  channel : Channel
  proofHeight : Nat
deriving DecidableEq, Repr

/-- Protocol messages, as constructed by the `PathEnd` message constructors;
each constructor records exactly the arguments the Go call passes. -/
inductive Msg where
  | updateClient (self : PathEnd) (header : Header) (signer : Addr)
  | chanInit (self counterparty : PathEnd) (signer : Addr)
  | chanTry (self counterparty : PathEnd) (counterpartyChan : QueryChannelResponse) (signer : Addr)
  | chanAck (self counterparty : PathEnd) (counterpartyChan : QueryChannelResponse) (signer : Addr)
  | chanConfirm (self : PathEnd) (counterpartyChan : QueryChannelResponse) (signer : Addr)
deriving DecidableEq, Repr

/-- Modelled from the spec: §6 message constructor `ChanInit` of the Chain
Adapter contract (the `PathEnd` methods are not among the provided files). -/
def PathEnd.ChanInit (p counterparty : PathEnd) (signer : Addr) : Msg :=
  .chanInit p counterparty signer

/-- Modelled from the spec: §6 message constructor `ChanTry`. -/
def PathEnd.ChanTry (p counterparty : PathEnd) (counterpartyChan : QueryChannelResponse)
    (signer : Addr) : Msg :=
  .chanTry p counterparty counterpartyChan signer

/-- Modelled from the spec: §6 message constructor `ChanAck`. -/
def PathEnd.ChanAck (p counterparty : PathEnd) (counterpartyChan : QueryChannelResponse)
    (signer : Addr) : Msg :=
  .chanAck p counterparty counterpartyChan signer

/-- Modelled from the spec: §6 message constructor `ChanConfirm`. -/
def PathEnd.ChanConfirm (p : PathEnd) (counterpartyChan : QueryChannelResponse)
    (signer : Addr) : Msg :=
  .chanConfirm p counterpartyChan signer

/-- Modelled from the spec: §6 message constructor `UpdateClients`, which turns
an ordered header sequence into the ordered sequence of update-client
messages. -/
def PathEnd.UpdateClients (p : PathEnd) (headers : List Header) (signer : Addr) : List Msg :=
  headers.map (fun h => .updateClient p h signer)

/-- Modelled from the spec: §3 "Relay Message Batch" — two ordered, side-tagged
message sequences, the "last step" flag and the submission outcome (the
`RelayMsgs` type is not among the provided files). -/
structure RelayMsgs where
  Src : List Msg
  Dst : List Msg
  Last : Bool
  Succeeded : Bool
deriving DecidableEq, Repr

/-- Modelled from the spec: `NewRelayMsgs` creates a fresh batch with empty
sides and cleared flags. -/
def NewRelayMsgs : RelayMsgs :=
  { Src := [], Dst := [], Last := false, Succeeded := false }

/-- Modelled from the spec: §3 — "a batch is ready iff at least one side's
sequence is non-empty". -/
def RelayMsgs.Ready (r : RelayMsgs) : Bool :=
  !(r.Src.isEmpty && r.Dst.isEmpty)

/-- Modelled from the spec: `RelayMsgs.Send` submits each side's messages
through the Chain Adapter (§6 `Send(messages)→success`) and records the
combined outcome in `Succeeded`; the outcome itself is supplied by the
environment. -/
def RelayMsgs.Send (r : RelayMsgs) (outcome : Bool) : RelayMsgs :=
  { r with Succeeded := outcome }

/-- Modelled from the spec: `RelayMsgs.Success` reports the recorded
submission outcome. -/
def RelayMsgs.Success (r : RelayMsgs) : Bool :=
  r.Succeeded

/-- The answers a chain adapter (`*ProvableChain`) gives that do not vary
within one handshake attempt: identity, path, and signer address. -/
structure ChainEnv where
  chainID : String
  path : PathEnd
  addressResult : Except Err Addr

/-- The two paired chains of one relay operation. -/
structure ChainPair where
  src : ChainEnv
  dst : ChainEnv

/-- Modelled from the spec: `mustGetAddress` (not among the provided files)
resolves the chain's signer address via the Chain Adapter's
`GetAddress()→address|error` (§6, `src/core/chain.go` line 15) and panics when
that call fails; the panic is mapped to a `fatal` outcome at each call site. -/
def mustGetAddress (chain : ChainEnv) : Except Err Addr :=
  chain.addressResult

/-- Outcome of the retried `SetupBothHeadersForUpdate` block. -/
inductive RetryOutcome where
  | okHeaders (srcUpdateHeaders dstUpdateHeaders : List Header)
  | errOut (e : Err)
  | updatesAbort (e : Err)
deriving DecidableEq, Repr

/-- Modelled from the spec: the bounded attempt count of the retry combinator
(§4.1, "retried a bounded number of times"); the constant is library
configuration not among the provided files. -/
def rtyAttNum : Nat := 5

/-- Modelled from the spec: the retry combinator `retry.Do` (§4.1/§7) around
`SetupBothHeadersForUpdate`.  `att i` answers the i-th attempt and `upd i` the
`Updates` refresh the `OnRetry` callback performs after a failed attempt; per
the source (part_000 lines 96-101, part_001 lines 101-106) a failed refresh
panics, and exhaustion returns the last attempt's error. -/
def retryLoop (att : Nat → Except Err (List Header × List Header))
    (upd : Nat → Option Err) : Nat → Nat → RetryOutcome
  | 0, _ => .errOut "retry: no attempts"
  | n + 1, i =>
    match att i with
    | .ok sd => .okHeaders sd.1 sd.2
    | .error e =>
      match upd i with
      | some e2 => .updatesAbort e2
      | none => if n = 0 then .errOut e else retryLoop att upd n (i + 1)

/-- The whole `retry.Do(..., rtyAtt, rtyDel, rtyErr, retry.OnRetry(...))`
call, starting at attempt 0 with the full attempt budget. -/
def retryDo (att : Nat → Except Err (List Header × List Header))
    (upd : Nat → Option Err) : RetryOutcome :=
  retryLoop att upd rtyAttNum 0

/-- Per-evaluation answers of the effectful calls inside `createChannelStep`:
path validation, header-synchronizer construction, header setup attempts, the
pinned-height channel query, and the latest-height data used by the finality
re-check. -/
structure StepOracle where
  validatePathsErr : Option Err
  newSyncHeadersErr : Option Err
  setupAtt : Nat → Except Err (List Header × List Header)
  setupUpd : Nat → Option Err
  queryPinned : Except Err (QueryChannelResponse × QueryChannelResponse)
  srcLatestHeight : Except Err Nat
  dstLatestHeight : Except Err Nat
  queryLatest : Except Err (QueryChannelResponse × QueryChannelResponse)

/-- Result of one step evaluation: an ordinary `(batch, nil)` return, an
ordinary `(nil, err)` return, or a process abort (`panic`). -/
inductive StepResult where
  | ok (msgs : RelayMsgs)
  | stepErr (e : Err)
  | fatal (msg : String)
deriving DecidableEq, Repr

/-- Shallow embedding of `checkChannelFinality` (part_000 lines 199-222): fetch
both latest heights, re-query both channel records there, and report `false`
as soon as either side's state differs from the pinned-height observation. -/
def checkChannelFinality (o : StepOracle) (srcChannel dstChannel : Channel) : Except Err Bool :=
  match o.srcLatestHeight with
  | .error e => .error e
  | .ok _sh =>
    match o.dstLatestHeight with
    | .error e => .error e
    | .ok _dh =>
      match o.queryLatest with
      | .error e => .error e
      | .ok (srcChanLatest, dstChanLatest) =>
        if srcChannel.state != srcChanLatest.channel.state then .ok false
        else if dstChannel.state != dstChanLatest.channel.state then .ok false
        else .ok true

/-- The handshake dispatch switch, shared verbatim by both source variants
(part_000 lines 117-181, part_001 lines 116-180): an exact-match table over
the observed `(src, dst)` channel-state pair, with a panicking `default:`
case.  Update-client messages are appended before the handshake message on
the same side, and `Last` is set on the two `ChanOpenConfirm` rows. -/
def channelHandshakeDispatch (c : ChainPair)
    (srcUpdateHeaders dstUpdateHeaders : List Header)
    (srcChan dstChan : QueryChannelResponse) (out : RelayMsgs) : StepResult :=
  match srcChan.channel.state, dstChan.channel.state with
  | .UNINITIALIZED, .UNINITIALIZED =>
    match mustGetAddress c.src with
    | .error e => .fatal e
    | .ok addr =>
      .ok { out with Src := out.Src ++ [c.src.path.ChanInit c.dst.path addr] }
  | .UNINITIALIZED, .INIT =>
    match mustGetAddress c.src with
    | .error e => .fatal e
    | .ok addr =>
      let out1 := if 0 < dstUpdateHeaders.length then
        { out with Src := out.Src ++ c.src.path.UpdateClients dstUpdateHeaders addr } else out
      .ok { out1 with Src := out1.Src ++ [c.src.path.ChanTry c.dst.path dstChan addr] }
  | .INIT, .UNINITIALIZED =>
    match mustGetAddress c.dst with
    | .error e => .fatal e
    | .ok addr =>
      let out1 := if 0 < srcUpdateHeaders.length then
        { out with Dst := out.Dst ++ c.dst.path.UpdateClients srcUpdateHeaders addr } else out
      .ok { out1 with Dst := out1.Dst ++ [c.dst.path.ChanTry c.src.path srcChan addr] }
  | .TRYOPEN, .INIT =>
    match mustGetAddress c.dst with
    | .error e => .fatal e
    | .ok addr =>
      let out1 := if 0 < srcUpdateHeaders.length then
        { out with Dst := out.Dst ++ c.dst.path.UpdateClients srcUpdateHeaders addr } else out
      .ok { out1 with Dst := out1.Dst ++ [c.dst.path.ChanAck c.src.path srcChan addr] }
  | .INIT, .TRYOPEN =>
    match mustGetAddress c.src with
    | .error e => .fatal e
    | .ok addr =>
      let out1 := if 0 < dstUpdateHeaders.length then
        { out with Src := out.Src ++ c.src.path.UpdateClients dstUpdateHeaders addr } else out
      .ok { out1 with Src := out1.Src ++ [c.src.path.ChanAck c.dst.path dstChan addr] }
  | .TRYOPEN, .OPEN =>
    match mustGetAddress c.src with
    | .error e => .fatal e
    | .ok addr =>
      let out1 := if 0 < dstUpdateHeaders.length then
        { out with Src := out.Src ++ c.src.path.UpdateClients dstUpdateHeaders addr } else out
      .ok { out1 with Src := out1.Src ++ [c.src.path.ChanConfirm dstChan addr], Last := true }
  | .OPEN, .TRYOPEN =>
    match mustGetAddress c.dst with
    | .error e => .fatal e
    | .ok addr =>
      let out1 := if 0 < srcUpdateHeaders.length then
        { out with Dst := out.Dst ++ c.dst.path.UpdateClients srcUpdateHeaders addr } else out
      .ok { out1 with Dst := out1.Dst ++ [c.dst.path.ChanConfirm srcChan addr], Last := true }
  | s1, s2 =>
    .fatal ("not implemeneted error: " ++ s1.name ++ " <=> " ++ s2.name)

/-- Shallow embedding of `createChannelStep` from the V0 variant
(part_000 lines 77-183): validate paths, build the header synchronizer,
retry `SetupBothHeadersForUpdate`, query both channel records at the pinned
heights, run the finality re-check (returning the still-empty batch when it
reports `false`), and finally dispatch on the state pair.  The `ordering`
argument is received but never consulted, exactly as in the source. -/
def createChannelStepV0 (c : ChainPair) (o : StepOracle) (ordering : ChanOrder) : StepResult :=
  let out := NewRelayMsgs
  match o.validatePathsErr with
  | some e => .stepErr e
  | none =>
    match o.newSyncHeadersErr with
    | some e => .stepErr e
    | none =>
      match retryDo o.setupAtt o.setupUpd with
      | .updatesAbort e => .fatal e
      | .errOut e => .stepErr e
      | .okHeaders srcUpdateHeaders dstUpdateHeaders =>
        match o.queryPinned with
        | .error e => .stepErr e
        | .ok (srcChan, dstChan) =>
          match checkChannelFinality o srcChan.channel dstChan.channel with
          | .error e => .stepErr e
          | .ok false => .ok out
          | .ok true =>
            channelHandshakeDispatch c srcUpdateHeaders dstUpdateHeaders srcChan dstChan out

/-- Shallow embedding of `createChannelStep` from the V1 variant
(part_001 lines 82-182): identical to V0 except that no finality re-check is
performed — the dispatch acts directly on the pinned-height observations. -/
def createChannelStepV1 (c : ChainPair) (o : StepOracle) (ordering : ChanOrder) : StepResult :=
  let out := NewRelayMsgs
  match o.validatePathsErr with
  | some e => .stepErr e
  | none =>
    match o.newSyncHeadersErr with
    | some e => .stepErr e
    | none =>
      match retryDo o.setupAtt o.setupUpd with
      | .updatesAbort e => .fatal e
      | .errOut e => .stepErr e
      | .okHeaders srcUpdateHeaders dstUpdateHeaders =>
        match o.queryPinned with
        | .error e => .stepErr e
        | .ok (srcChan, dstChan) =>
          channelHandshakeDispatch c srcUpdateHeaders dstUpdateHeaders srcChan dstChan out

/-- A formatted Go error (`fmt.Errorf`): the format string plus the
interpolated arguments, which are the identifiers the error names. -/
structure FmtError where
  format : String
  args : List String
deriving DecidableEq, Repr

/-- The terminal error the V0 driver builds on the 3rd consecutive failure
(part_000 lines 66-69): chain ID, channel ID and port ID of both sides. -/
def chanFailedErrV0 (c : ChainPair) : FmtError :=
  { format := "! Channel failed: [%s]chan\x7b%s\x7dport\x7b%s\x7d -> [%s]chan\x7b%s\x7dport\x7b%s\x7d"
    args := [c.src.chainID, c.src.path.channelID, c.src.path.portID,
             c.dst.chainID, c.dst.path.channelID, c.dst.path.portID] }

/-- The terminal error the V1 driver builds on the 3rd consecutive failure
(part_001 lines 71-74): the same format string, but interpolating chain ID,
client ID and channel ID of both sides — no port ID. -/
def chanFailedErrV1 (c : ChainPair) : FmtError :=
  { format := "! Channel failed: [%s]chan\x7b%s\x7dport\x7b%s\x7d -> [%s]chan\x7b%s\x7dport\x7b%s\x7d"
    args := [c.src.chainID, c.src.path.clientID, c.src.path.channelID,
             c.dst.chainID, c.dst.path.clientID, c.dst.path.channelID] }

/-- One tick of the driver loop: the oracle answering this tick's step
evaluation, plus the submission outcome the chains report if the batch is
sent. -/
structure Tick where
  oracle : StepOracle
  sendSuccess : Bool

/-- Result of running the driver over a finite trace of ticks: `pending` means
the trace was exhausted while the Go loop was still waiting for its next tick
(the loop itself is infinite). -/
inductive ChanResult where
  | ok
  | evalErr (e : Err)
  | failed (e : FmtError)
  | aborted (msg : String)
  | pending
deriving DecidableEq, Repr

/-- The V0 driver loop body (part_000 lines 27-72): evaluate the step; on
error return it; if the batch is not ready, continue with the next tick;
otherwise send it and branch on success/`Last`, incrementing the failure
counter on failure and returning the terminal error once it exceeds 2. -/
def chanLoopV0 (c : ChainPair) (order : ChanOrder) : Nat → List Tick → ChanResult
  | _, [] => .pending
  | failures, t :: rest =>
    match createChannelStepV0 c t.oracle order with
    | .fatal m => .aborted m
    | .stepErr e => .evalErr e
    | .ok chanSteps =>
      if !chanSteps.Ready then chanLoopV0 c order failures rest
      else
        let sent := chanSteps.Send t.sendSuccess
        if sent.Success && sent.Last then .ok
        else if sent.Success then chanLoopV0 c order 0 rest
        else
          if failures + 1 > 2 then .failed (chanFailedErrV0 c)
          else chanLoopV0 c order (failures + 1) rest

/-- Shallow embedding of the V0 `CreateChannel` driver (part_000 lines 16-75):
translate the `ordered` flag and run the loop with the failure counter at 0.
The timer duration only paces the loop in real time and has no effect on the
computed result, so it is not part of the model. -/
def CreateChannelV0 (c : ChainPair) (ordered : Bool) (ticks : List Tick) : ChanResult :=
  let order := if ordered then ChanOrder.ORDERED else ChanOrder.UNORDERED
  chanLoopV0 c order 0 ticks

/-- The V1 driver loop body (part_001 lines 27-77): identical to V0 except
that a not-ready batch exits the loop (`break`), after which the function
returns nil, and the terminal error interpolates client/channel IDs. -/
def chanLoopV1 (c : ChainPair) (order : ChanOrder) : Nat → List Tick → ChanResult
  | _, [] => .pending
  | failures, t :: rest =>
    match createChannelStepV1 c t.oracle order with
    | .fatal m => .aborted m
    | .stepErr e => .evalErr e
    | .ok chanSteps =>
      if !chanSteps.Ready then .ok
      else
        let sent := chanSteps.Send t.sendSuccess
        if sent.Success && sent.Last then .ok
        else if sent.Success then chanLoopV1 c order 0 rest
        else
          if failures + 1 > 2 then .failed (chanFailedErrV1 c)
          else chanLoopV1 c order (failures + 1) rest

/-- Shallow embedding of the V1 `CreateChannel` driver (part_001 lines 15-80). -/
def CreateChannelV1 (c : ChainPair) (ordered : Bool) (ticks : List Tick) : ChanResult :=
  let order := if ordered then ChanOrder.ORDERED else ChanOrder.UNORDERED
  chanLoopV1 c order 0 ticks

/-- Classification of one tick's outcome, abstracting the driver's branching:
evaluator error, abort, not-ready batch, successful final submission,
successful non-final submission, or failed submission. -/
inductive TickClass where
  | tEvalErr
  | tAbort
  | tNotReady
  | tLastDone
  | tMidOk
  | tFail
deriving DecidableEq, Repr

/-- Classify a tick from a step result and the submission outcome, following
exactly the branch structure of the driver loops. -/
def classifyTick (step : StepResult) (sendSuccess : Bool) : TickClass :=
  match step with
  | .fatal _ => .tAbort
  | .stepErr _ => .tEvalErr
  | .ok m =>
    if !m.Ready then .tNotReady
    else
      let sent := m.Send sendSuccess
      if sent.Success && sent.Last then .tLastDone
      else if sent.Success then .tMidOk
      else .tFail

/-- Tick classification under the V0 evaluator. -/
def classifyV0 (c : ChainPair) (order : ChanOrder) (t : Tick) : TickClass :=
  classifyTick (createChannelStepV0 c t.oracle order) t.sendSuccess

/-- Tick classification under the V1 evaluator. -/
def classifyV1 (c : ChainPair) (order : ChanOrder) (t : Tick) : TickClass :=
  classifyTick (createChannelStepV1 c t.oracle order) t.sendSuccess

/-- Spec-side failure policy, following the words of §4.3: the counter starts
at the given value; a not-ready tick changes nothing; a successful non-final
submission resets the counter to 0; a final success, an evaluator error or an
abort ends the run without the terminal counter error; a failed submission
increments the counter and the run terminates with the terminal error as soon
as the counter exceeds 2.  The result is the index of the tick at which that
termination occurs, when it does. -/
def specFailIndex : Nat → List TickClass → Option Nat
  | _, [] => none
  | f, cl :: cs =>
    match cl with
    | .tEvalErr => none
    | .tAbort => none
    | .tLastDone => none
    | .tNotReady => (specFailIndex f cs).map (· + 1)
    | .tMidOk => (specFailIndex 0 cs).map (· + 1)
    | .tFail => if f + 1 > 2 then some 0 else (specFailIndex (f + 1) cs).map (· + 1)

/-- The same failure policy, but with a not-ready tick ending the run (the V1
loop exits on a not-ready batch instead of waiting). -/
def specFailIndexBreak : Nat → List TickClass → Option Nat
  | _, [] => none
  | f, cl :: cs =>
    match cl with
    | .tEvalErr => none
    | .tAbort => none
    | .tLastDone => none
    | .tNotReady => none
    | .tMidOk => (specFailIndexBreak 0 cs).map (· + 1)
    | .tFail => if f + 1 > 2 then some 0 else (specFailIndexBreak (f + 1) cs).map (· + 1)

/-- A Go channel value, identified by a number. -/
abbrev GoChanId := Nat

/-- One event-listener goroutine as `RunStrategy` starts it: per the
`StartEventListener(dst ChainI, strategy StrategyI)` signature
(`src/core/chain.go` line 34) the listener receives only the counterparty
chain and the strategy, so the Go channels it receives stop signals from are
recorded explicitly. -/
structure ListenerTask where
  chain : String
  counterparty : String
  stopChannels : List GoChanId
deriving DecidableEq, Repr

/-- The cancellation closure `RunStrategy` returns: invoking it performs a
blocking send on the recorded Go channel. -/
structure CancelHandle where
  sendsOn : GoChanId
deriving DecidableEq, Repr

/-- Oracle for the effectful calls inside `RunStrategy`. -/
structure StrategyOracle where
  newSyncHeadersErr : Option Err
  unrelayedSequencesErr : Option Err
  relayPacketsErr : Option Err

/-- What a `RunStrategy` call leaves behind: the listener tasks it started and
its ordinary return value. -/
structure RunStrategyOutcome where
  started : List ListenerTask
  result : Except Err CancelHandle

/-- Shallow embedding of `RunStrategy` (part_002 lines 19-44): allocate
`doneChan`, build the header synchronizer, start one event listener per chain
— each invoked with only the counterparty and the strategy, so neither task
is handed any stop channel — compute the unrelayed sequences, run one relay
pass, and return a closure that sends on `doneChan`. -/
def RunStrategy (src dst : ChainEnv) (o : StrategyOracle) : RunStrategyOutcome :=
  let doneChan : GoChanId := 0
  match o.newSyncHeadersErr with
  | some e => { started := [], result := .error e }
  | none =>
    let tasks : List ListenerTask :=
      [ { chain := src.chainID, counterparty := dst.chainID, stopChannels := [] },
        { chain := dst.chainID, counterparty := src.chainID, stopChannels := [] } ]
    match o.unrelayedSequencesErr with
    | some e => { started := tasks, result := .error e }
    | none =>
      match o.relayPacketsErr with
      | some e => { started := tasks, result := .error e }
      | none => { started := tasks, result := .ok { sendsOn := doneChan } }

/-- If both latest-height re-observations agree with the pinned-height states,
the finality check reports `true`. -/
theorem checkChannelFinality_true (o : StepOracle) (sc dc : Channel)
    (sL dL : QueryChannelResponse) (hs hd : Nat)
    (hsh : o.srcLatestHeight = .ok hs) (hdh : o.dstLatestHeight = .ok hd)
    (hql : o.queryLatest = .ok (sL, dL))
    (h1 : sc.state = sL.channel.state) (h2 : dc.state = dL.channel.state) :
    checkChannelFinality o sc dc = .ok true := by
  simp [checkChannelFinality, hsh, hdh, hql, h1, h2]

/-- If either side's latest-height re-observation disagrees with the
pinned-height state, the finality check reports `false`. -/
theorem checkChannelFinality_false (o : StepOracle) (sc dc : Channel)
    (sL dL : QueryChannelResponse) (hs hd : Nat)
    (hsh : o.srcLatestHeight = .ok hs) (hdh : o.dstLatestHeight = .ok hd)
    (hql : o.queryLatest = .ok (sL, dL))
    (h : sc.state ≠ sL.channel.state ∨ dc.state ≠ dL.channel.state) :
    checkChannelFinality o sc dc = .ok false := by
  rcases h with h | h
  · simp [checkChannelFinality, hsh, hdh, hql, bne_iff_ne, h]
  · by_cases h1 : sc.state = sL.channel.state
    · simp [checkChannelFinality, hsh, hdh, hql, h1, bne_iff_ne, h]
    · simp [checkChannelFinality, hsh, hdh, hql, bne_iff_ne, h1]

/-- When every pre-dispatch call succeeds and the finality check passes, the
V0 evaluator reduces to the dispatch switch. -/
theorem createChannelStepV0_dispatch (c : ChainPair) (o : StepOracle) (ord : ChanOrder)
    (su du : List Header) (sC dC sL dL : QueryChannelResponse) (hs hd : Nat)
    (hv : o.validatePathsErr = none) (hn : o.newSyncHeadersErr = none)
    (hr : retryDo o.setupAtt o.setupUpd = .okHeaders su du)
    (hq : o.queryPinned = .ok (sC, dC))
    (hsh : o.srcLatestHeight = .ok hs) (hdh : o.dstLatestHeight = .ok hd)
    (hql : o.queryLatest = .ok (sL, dL))
    (h1 : sC.channel.state = sL.channel.state) (h2 : dC.channel.state = dL.channel.state) :
    createChannelStepV0 c o ord = channelHandshakeDispatch c su du sC dC NewRelayMsgs := by
  simp [createChannelStepV0, hv, hn, hr, hq,
    checkChannelFinality_true o sC.channel dC.channel sL dL hs hd hsh hdh hql h1 h2]

/-- When every pre-dispatch call succeeds but the finality check fails, the
V0 evaluator returns the untouched empty batch. -/
theorem createChannelStepV0_notFinal (c : ChainPair) (o : StepOracle) (ord : ChanOrder)
    (su du : List Header) (sC dC sL dL : QueryChannelResponse) (hs hd : Nat)
    (hv : o.validatePathsErr = none) (hn : o.newSyncHeadersErr = none)
    (hr : retryDo o.setupAtt o.setupUpd = .okHeaders su du)
    (hq : o.queryPinned = .ok (sC, dC))
    (hsh : o.srcLatestHeight = .ok hs) (hdh : o.dstLatestHeight = .ok hd)
    (hql : o.queryLatest = .ok (sL, dL))
    (h : sC.channel.state ≠ sL.channel.state ∨ dC.channel.state ≠ dL.channel.state) :
    createChannelStepV0 c o ord = .ok NewRelayMsgs := by
  simp [createChannelStepV0, hv, hn, hr, hq,
    checkChannelFinality_false o sC.channel dC.channel sL dL hs hd hsh hdh hql h]

/-- When every pre-dispatch call succeeds, the V1 evaluator reduces to the
dispatch switch directly — it performs no finality check. -/
theorem createChannelStepV1_dispatch (c : ChainPair) (o : StepOracle) (ord : ChanOrder)
    (su du : List Header) (sC dC : QueryChannelResponse)
    (hv : o.validatePathsErr = none) (hn : o.newSyncHeadersErr = none)
    (hr : retryDo o.setupAtt o.setupUpd = .okHeaders su du)
    (hq : o.queryPinned = .ok (sC, dC)) :
    createChannelStepV1 c o ord = channelHandshakeDispatch c su du sC dC NewRelayMsgs := by
  simp [createChannelStepV1, hv, hn, hr, hq]

/-- C1: for every one of the seven reachable (srcState, dstState) pairs in the
§4.2 dispatch table, `createChannelStep` (in both source variants) returns a
batch whose only handshake message is the specified one on the specified side,
preceded on that same side by the pending update-client messages, with the
"last step" flag set exactly for (TRYOPEN, OPEN) and (OPEN, TRYOPEN) and unset
for the other five pairs. -/
theorem claim1_dispatch_table :
    (∀ (c : ChainPair) (o : StepOracle) (ord : ChanOrder) (su du : List Header)
        (sC dC sL dL : QueryChannelResponse) (hs hd : Nat) (a b : Addr),
      o.validatePathsErr = none → o.newSyncHeadersErr = none →
      retryDo o.setupAtt o.setupUpd = .okHeaders su du →
      o.queryPinned = .ok (sC, dC) →
      o.srcLatestHeight = .ok hs → o.dstLatestHeight = .ok hd →
      o.queryLatest = .ok (sL, dL) →
      sC.channel.state = sL.channel.state → dC.channel.state = dL.channel.state →
      c.src.addressResult = .ok a → c.dst.addressResult = .ok b →
      ((sC.channel.state = .UNINITIALIZED → dC.channel.state = .UNINITIALIZED →
          createChannelStepV0 c o ord =
            .ok ⟨[c.src.path.ChanInit c.dst.path a], [], false, false⟩) ∧
       (sC.channel.state = .UNINITIALIZED → dC.channel.state = .INIT →
          createChannelStepV0 c o ord =
            .ok ⟨c.src.path.UpdateClients du a ++ [c.src.path.ChanTry c.dst.path dC a],
                 [], false, false⟩) ∧
       (sC.channel.state = .INIT → dC.channel.state = .UNINITIALIZED →
          createChannelStepV0 c o ord =
            .ok ⟨[], c.dst.path.UpdateClients su b ++ [c.dst.path.ChanTry c.src.path sC b],
                 false, false⟩) ∧
       (sC.channel.state = .TRYOPEN → dC.channel.state = .INIT →
          createChannelStepV0 c o ord =
            .ok ⟨[], c.dst.path.UpdateClients su b ++ [c.dst.path.ChanAck c.src.path sC b],
                 false, false⟩) ∧
       (sC.channel.state = .INIT → dC.channel.state = .TRYOPEN →
          createChannelStepV0 c o ord =
            .ok ⟨c.src.path.UpdateClients du a ++ [c.src.path.ChanAck c.dst.path dC a],
                 [], false, false⟩) ∧
       (sC.channel.state = .TRYOPEN → dC.channel.state = .OPEN →
          createChannelStepV0 c o ord =
            .ok ⟨c.src.path.UpdateClients du a ++ [c.src.path.ChanConfirm dC a],
                 [], true, false⟩) ∧
       (sC.channel.state = .OPEN → dC.channel.state = .TRYOPEN →
          createChannelStepV0 c o ord =
            .ok ⟨[], c.dst.path.UpdateClients su b ++ [c.dst.path.ChanConfirm sC b],
                 true, false⟩))) ∧
    (∀ (c : ChainPair) (o : StepOracle) (ord : ChanOrder) (su du : List Header)
        (sC dC : QueryChannelResponse) (a b : Addr),
      o.validatePathsErr = none → o.newSyncHeadersErr = none →
      retryDo o.setupAtt o.setupUpd = .okHeaders su du →
      o.queryPinned = .ok (sC, dC) →
      c.src.addressResult = .ok a → c.dst.addressResult = .ok b →
      ((sC.channel.state = .UNINITIALIZED → dC.channel.state = .UNINITIALIZED →
          createChannelStepV1 c o ord =
            .ok ⟨[c.src.path.ChanInit c.dst.path a], [], false, false⟩) ∧
       (sC.channel.state = .UNINITIALIZED → dC.channel.state = .INIT →
          createChannelStepV1 c o ord =
            .ok ⟨c.src.path.UpdateClients du a ++ [c.src.path.ChanTry c.dst.path dC a],
                 [], false, false⟩) ∧
       (sC.channel.state = .INIT → dC.channel.state = .UNINITIALIZED →
          createChannelStepV1 c o ord =
            .ok ⟨[], c.dst.path.UpdateClients su b ++ [c.dst.path.ChanTry c.src.path sC b],
                 false, false⟩) ∧
       (sC.channel.state = .TRYOPEN → dC.channel.state = .INIT →
          createChannelStepV1 c o ord =
            .ok ⟨[], c.dst.path.UpdateClients su b ++ [c.dst.path.ChanAck c.src.path sC b],
                 false, false⟩) ∧
       (sC.channel.state = .INIT → dC.channel.state = .TRYOPEN →
          createChannelStepV1 c o ord =
            .ok ⟨c.src.path.UpdateClients du a ++ [c.src.path.ChanAck c.dst.path dC a],
                 [], false, false⟩) ∧
       (sC.channel.state = .TRYOPEN → dC.channel.state = .OPEN →
          createChannelStepV1 c o ord =
            .ok ⟨c.src.path.UpdateClients du a ++ [c.src.path.ChanConfirm dC a],
                 [], true, false⟩) ∧
       (sC.channel.state = .OPEN → dC.channel.state = .TRYOPEN →
          createChannelStepV1 c o ord =
            .ok ⟨[], c.dst.path.UpdateClients su b ++ [c.dst.path.ChanConfirm sC b],
                 true, false⟩))) := by
  constructor
  · intro c o ord su du sC dC sL dL hs hd a b hv hn hr hq hsh hdh hql h1 h2 ha hb
    rw [createChannelStepV0_dispatch c o ord su du sC dC sL dL hs hd hv hn hr hq hsh hdh hql h1 h2]
    refine ⟨?_, ?_, ?_, ?_, ?_, ?_, ?_⟩ <;> intro e1 e2 <;> unfold channelHandshakeDispatch <;>
      rw [e1, e2] <;>
      rcases su with _ | ⟨x, xs⟩ <;> rcases du with _ | ⟨y, ys⟩ <;>
        simp [mustGetAddress, ha, hb, NewRelayMsgs, PathEnd.UpdateClients]
  · intro c o ord su du sC dC a b hv hn hr hq ha hb
    rw [createChannelStepV1_dispatch c o ord su du sC dC hv hn hr hq]
    refine ⟨?_, ?_, ?_, ?_, ?_, ?_, ?_⟩ <;> intro e1 e2 <;> unfold channelHandshakeDispatch <;>
      rw [e1, e2] <;>
      rcases su with _ | ⟨x, xs⟩ <;> rcases du with _ | ⟨y, ys⟩ <;>
        simp [mustGetAddress, ha, hb, NewRelayMsgs, PathEnd.UpdateClients]

/-- Concrete src-side path fixture for closed instantiations. -/
def pathEx1 : PathEnd :=
  { clientID := "07-tendermint-0", connectionID := "connection-0",
    channelID := "channel-0", portID := "transfer-0" }

/-- Concrete dst-side path fixture. -/
def pathEx2 : PathEnd :=
  { clientID := "07-tendermint-1", connectionID := "connection-1",
    channelID := "channel-1", portID := "transfer-1" }

/-- A concrete chain pair whose addresses both resolve. -/
def pairEx : ChainPair :=
  { src := { chainID := "ibc0", path := pathEx1, addressResult := .ok "addr0" },
    dst := { chainID := "ibc1", path := pathEx2, addressResult := .ok "addr1" } }

/-- A channel query response observing state `s` at proof height 10. -/
def qcr (s : ChanState) : QueryChannelResponse :=
  { channel := { state := s }, proofHeight := 10 }

/-- An oracle whose calls all succeed, observing the given pinned states and
re-observing the same states at the latest heights; one pending header in
each direction. -/
def oracleEx (s d : ChanState) : StepOracle :=
  { validatePathsErr := none, newSyncHeadersErr := none,
    setupAtt := fun _ => .ok ([3], [4]), setupUpd := fun _ => none,
    queryPinned := .ok (qcr s, qcr d),
    srcLatestHeight := .ok 100, dstLatestHeight := .ok 200,
    queryLatest := .ok (qcr s, qcr d) }

/-- Closed instantiation of the (TRYOPEN, OPEN) row of C1: the pending dst
header becomes one update-client message followed by `ChanOpenConfirm` on src,
with the "last step" flag set. -/
theorem claim1_dispatch_table_witness :
    createChannelStepV0 pairEx (oracleEx .TRYOPEN .OPEN) .UNORDERED =
      .ok ⟨[Msg.updateClient pathEx1 4 "addr0", Msg.chanConfirm pathEx1 (qcr .OPEN) "addr0"],
           [], true, false⟩ := by
  have h := (claim1_dispatch_table.1 pairEx (oracleEx .TRYOPEN .OPEN) .UNORDERED [3] [4]
    (qcr .TRYOPEN) (qcr .OPEN) (qcr .TRYOPEN) (qcr .OPEN) 100 200 "addr0" "addr1"
    rfl rfl rfl rfl rfl rfl rfl rfl rfl rfl rfl).2.2.2.2.2.1 rfl rfl
  simpa [pairEx, pathEx1, PathEnd.UpdateClients, PathEnd.ChanConfirm] using h

/-- C2 (amended to the V0 variant): when the pinned-height and latest-height
observations of channel state disagree on either side, the V0 evaluator
returns the untouched empty batch — no error and no handshake message — and
that batch is not ready. -/
theorem claim2_finality_v0 (c : ChainPair) (o : StepOracle) (ord : ChanOrder)
    (su du : List Header) (sC dC sL dL : QueryChannelResponse) (hs hd : Nat)
    (hv : o.validatePathsErr = none) (hn : o.newSyncHeadersErr = none)
    (hr : retryDo o.setupAtt o.setupUpd = .okHeaders su du)
    (hq : o.queryPinned = .ok (sC, dC))
    (hsh : o.srcLatestHeight = .ok hs) (hdh : o.dstLatestHeight = .ok hd)
    (hql : o.queryLatest = .ok (sL, dL))
    (h : sC.channel.state ≠ sL.channel.state ∨ dC.channel.state ≠ dL.channel.state) :
    createChannelStepV0 c o ord = .ok NewRelayMsgs ∧ NewRelayMsgs.Ready = false :=
  ⟨createChannelStepV0_notFinal c o ord su du sC dC sL dL hs hd hv hn hr hq hsh hdh hql h, rfl⟩

/-- An oracle whose pinned observation is (UNINITIALIZED, UNINITIALIZED) while
the latest-height re-observation of src is INIT: the src state is in
transition. -/
def oracleMismEx : StepOracle :=
  { validatePathsErr := none, newSyncHeadersErr := none,
    setupAtt := fun _ => .ok ([3], [4]), setupUpd := fun _ => none,
    queryPinned := .ok (qcr .UNINITIALIZED, qcr .UNINITIALIZED),
    srcLatestHeight := .ok 100, dstLatestHeight := .ok 200,
    queryLatest := .ok (qcr .INIT, qcr .UNINITIALIZED) }

/-- Closed instantiation of the amended C2 on the in-transition oracle. -/
theorem claim2_finality_v0_witness :
    createChannelStepV0 pairEx oracleMismEx .UNORDERED = .ok NewRelayMsgs ∧
      NewRelayMsgs.Ready = false :=
  claim2_finality_v0 pairEx oracleMismEx .UNORDERED [3] [4]
    (qcr .UNINITIALIZED) (qcr .UNINITIALIZED) (qcr .INIT) (qcr .UNINITIALIZED) 100 200
    rfl rfl rfl rfl rfl rfl rfl (Or.inl (by decide))

/-- C2 as stated fails on the V1 evaluator: with the same in-transition
observations (pinned src state UNINITIALIZED, latest src state INIT), the V1
step still emits `ChanOpenInit` in a ready batch. -/
theorem claim2_cex :
    (oracleMismEx.queryPinned = .ok (qcr .UNINITIALIZED, qcr .UNINITIALIZED) ∧
     oracleMismEx.queryLatest = .ok (qcr .INIT, qcr .UNINITIALIZED) ∧
     (qcr ChanState.UNINITIALIZED).channel.state ≠ (qcr ChanState.INIT).channel.state) ∧
    createChannelStepV1 pairEx oracleMismEx .UNORDERED =
      .ok ⟨[Msg.chanInit pathEx1 pathEx2 "addr0"], [], false, false⟩ ∧
    RelayMsgs.Ready ⟨[Msg.chanInit pathEx1 pathEx2 "addr0"], [], false, false⟩ = true := by
  exact ⟨⟨rfl, rfl, by decide⟩, rfl, rfl⟩

/-- The seven reachable state pairs of the §4.2 table. -/
def inHandshakeTable : ChanState → ChanState → Bool
  | .UNINITIALIZED, .UNINITIALIZED => true
  | .UNINITIALIZED, .INIT => true
  | .INIT, .UNINITIALIZED => true
  | .TRYOPEN, .INIT => true
  | .INIT, .TRYOPEN => true
  | .TRYOPEN, .OPEN => true
  | .OPEN, .TRYOPEN => true
  | _, _ => false

/-- Outside the seven table rows, the dispatch hits the panicking `default:`
case. -/
theorem channelHandshakeDispatch_default (c : ChainPair) (su du : List Header)
    (sC dC : QueryChannelResponse) (out : RelayMsgs)
    (hT : inHandshakeTable sC.channel.state dC.channel.state = false) :
    channelHandshakeDispatch c su du sC dC out =
      .fatal ("not implemeneted error: " ++ sC.channel.state.name ++ " <=> " ++
        dC.channel.state.name) := by
  unfold channelHandshakeDispatch
  cases h1 : sC.channel.state <;> cases h2 : dC.channel.state <;>
    rw [h1, h2] at hT <;> simp_all [inHandshakeTable, ChanState.name]

/-- C5: for a state pair outside the seven reachable combinations that
reaches the dispatch, both evaluator variants abort the process (the Go
`panic` of the `default:` case) — neither a batch nor an ordinary error value
is returned. -/
theorem claim5_no_fallback (c : ChainPair) (o : StepOracle) (ord : ChanOrder)
    (su du : List Header) (sC dC sL dL : QueryChannelResponse) (hs hd : Nat)
    (hv : o.validatePathsErr = none) (hn : o.newSyncHeadersErr = none)
    (hr : retryDo o.setupAtt o.setupUpd = .okHeaders su du)
    (hq : o.queryPinned = .ok (sC, dC))
    (hsh : o.srcLatestHeight = .ok hs) (hdh : o.dstLatestHeight = .ok hd)
    (hql : o.queryLatest = .ok (sL, dL))
    (h1 : sC.channel.state = sL.channel.state) (h2 : dC.channel.state = dL.channel.state)
    (hT : inHandshakeTable sC.channel.state dC.channel.state = false) :
    createChannelStepV0 c o ord =
      .fatal ("not implemeneted error: " ++ sC.channel.state.name ++ " <=> " ++
        dC.channel.state.name) ∧
    createChannelStepV1 c o ord =
      .fatal ("not implemeneted error: " ++ sC.channel.state.name ++ " <=> " ++
        dC.channel.state.name) := by
  rw [createChannelStepV0_dispatch c o ord su du sC dC sL dL hs hd hv hn hr hq hsh hdh hql h1 h2,
    createChannelStepV1_dispatch c o ord su du sC dC hv hn hr hq]
  exact ⟨channelHandshakeDispatch_default c su du sC dC NewRelayMsgs hT,
    channelHandshakeDispatch_default c su du sC dC NewRelayMsgs hT⟩

/-- Closed instantiation of C5 at the unreachable pair (OPEN, OPEN). -/
theorem claim5_no_fallback_witness :
    createChannelStepV0 pairEx (oracleEx .OPEN .OPEN) .UNORDERED =
      .fatal ("not implemeneted error: " ++ (qcr ChanState.OPEN).channel.state.name ++ " <=> " ++
        (qcr ChanState.OPEN).channel.state.name) ∧
    createChannelStepV1 pairEx (oracleEx .OPEN .OPEN) .UNORDERED =
      .fatal ("not implemeneted error: " ++ (qcr ChanState.OPEN).channel.state.name ++ " <=> " ++
        (qcr ChanState.OPEN).channel.state.name) :=
  claim5_no_fallback pairEx (oracleEx .OPEN .OPEN) .UNORDERED [3] [4]
    (qcr .OPEN) (qcr .OPEN) (qcr .OPEN) (qcr .OPEN) 100 200
    rfl rfl rfl rfl rfl rfl rfl rfl rfl rfl

/-- When every attempt fails and every refresh succeeds, the retry loop
exhausts its budget and reports the last attempt's error. -/
theorem retryLoop_exhausted (att : Nat → Except Err (List Header × List Header))
    (upd : Nat → Option Err) (es : Nat → Err)
    (hatt : ∀ i, att i = .error (es i)) (hupd : ∀ i, upd i = none) :
    ∀ n i, retryLoop att upd (n + 1) i = .errOut (es (i + n))
  | 0, i => by simp [retryLoop, hatt i, hupd i]
  | n + 1, i => by
    have ih := retryLoop_exhausted att upd es hatt hupd n (i + 1)
    have harith : i + 1 + n = i + (n + 1) := by omega
    rw [harith] at ih
    rw [retryLoop, hatt i, hupd i]
    simpa using ih

/-- C7: when the retried `SetupBothHeadersForUpdate` call still fails after
its bounded attempts are exhausted, `retry.Do` surfaces the last error, and
both evaluator variants return that error instead of proceeding to the
channel queries or returning a batch. -/
theorem claim7_setup_error :
    (∀ (att : Nat → Except Err (List Header × List Header)) (upd : Nat → Option Err)
        (es : Nat → Err), (∀ i, att i = .error (es i)) → (∀ i, upd i = none) →
      retryDo att upd = .errOut (es (rtyAttNum - 1))) ∧
    (∀ (c : ChainPair) (o : StepOracle) (ord : ChanOrder) (e : Err),
      o.validatePathsErr = none → o.newSyncHeadersErr = none →
      retryDo o.setupAtt o.setupUpd = .errOut e →
      createChannelStepV0 c o ord = .stepErr e ∧ createChannelStepV1 c o ord = .stepErr e) := by
  constructor
  · intro att upd es hatt hupd
    have h := retryLoop_exhausted att upd es hatt hupd (rtyAttNum - 1) 0
    simpa [retryDo, rtyAttNum] using h
  · intro c o ord e hv hn hr
    exact ⟨by simp [createChannelStepV0, hv, hn, hr], by simp [createChannelStepV1, hv, hn, hr]⟩

/-- An oracle whose header-setup attempts all fail while the refreshes
succeed. -/
def oracleFailSetupEx : StepOracle :=
  { validatePathsErr := none, newSyncHeadersErr := none,
    setupAtt := fun _ => .error "header fetch failed", setupUpd := fun _ => none,
    queryPinned := .ok (qcr .UNINITIALIZED, qcr .UNINITIALIZED),
    srcLatestHeight := .ok 100, dstLatestHeight := .ok 200,
    queryLatest := .ok (qcr .UNINITIALIZED, qcr .UNINITIALIZED) }

/-- Closed instantiation of C7: exhausted retries surface the error. -/
theorem claim7_setup_error_witness :
    retryDo oracleFailSetupEx.setupAtt oracleFailSetupEx.setupUpd =
      .errOut "header fetch failed" ∧
    createChannelStepV0 pairEx oracleFailSetupEx .UNORDERED =
      .stepErr "header fetch failed" := by
  have h1 := claim7_setup_error.1 oracleFailSetupEx.setupAtt oracleFailSetupEx.setupUpd
    (fun _ => "header fetch failed") (fun _ => rfl) (fun _ => rfl)
  exact ⟨h1,
    (claim7_setup_error.2 pairEx oracleFailSetupEx .UNORDERED "header fetch failed" rfl rfl h1).1⟩

/-- C9: the batch computed by `createChannelStep` is identical for any two
values of the ordering argument, in both variants — the parameter is received
but never consulted. -/
theorem claim9_ordering_independent (c : ChainPair) (o : StepOracle) (o1 o2 : ChanOrder) :
    createChannelStepV0 c o o1 = createChannelStepV0 c o o2 ∧
    createChannelStepV1 c o o1 = createChannelStepV1 c o o2 :=
  ⟨rfl, rfl⟩

/-- The side whose signer address the dispatch resolves in each reachable row
of the §4.2 table: `true` means src. -/
def tableSignerIsSrc : ChanState → ChanState → Bool
  | .UNINITIALIZED, .UNINITIALIZED => true
  | .UNINITIALIZED, .INIT => true
  | .INIT, .UNINITIALIZED => false
  | .TRYOPEN, .INIT => false
  | .INIT, .TRYOPEN => true
  | .TRYOPEN, .OPEN => true
  | .OPEN, .TRYOPEN => false
  | _, _ => true

/-- Inside the table, a failing `GetAddress` on the signing side panics
through `mustGetAddress`, aborting the dispatch. -/
theorem dispatch_fatal_signer (c : ChainPair) (su du : List Header)
    (sC dC : QueryChannelResponse) (out : RelayMsgs) (e : Err)
    (hT : inHandshakeTable sC.channel.state dC.channel.state = true)
    (he : (if tableSignerIsSrc sC.channel.state dC.channel.state then c.src
           else c.dst).addressResult = .error e) :
    channelHandshakeDispatch c su du sC dC out = .fatal e := by
  unfold channelHandshakeDispatch
  cases h1 : sC.channel.state <;> cases h2 : dC.channel.state <;>
    rw [h1, h2] at hT he <;> simp [inHandshakeTable] at hT <;>
    simp [tableSignerIsSrc] at he <;> simp [mustGetAddress, he]

/-- Inside the table, a succeeding `GetAddress` on the signing side lets the
dispatch return a batch. -/
theorem dispatch_ok_signer (c : ChainPair) (su du : List Header)
    (sC dC : QueryChannelResponse) (out : RelayMsgs) (a : Addr)
    (hT : inHandshakeTable sC.channel.state dC.channel.state = true)
    (ha : (if tableSignerIsSrc sC.channel.state dC.channel.state then c.src
           else c.dst).addressResult = .ok a) :
    ∃ m, channelHandshakeDispatch c su du sC dC out = .ok m := by
  unfold channelHandshakeDispatch
  cases h1 : sC.channel.state <;> cases h2 : dC.channel.state <;>
    rw [h1, h2] at hT ha <;> simp [inHandshakeTable] at hT <;>
    simp [tableSignerIsSrc] at ha <;> simp [mustGetAddress, ha]

/-- C10: in every reachable dispatch case, the signer address is resolved via
the panicking `mustGetAddress`: when the signing side's `GetAddress` fails the
evaluator aborts the process instead of returning an error value, and the
ordinary `(batch, nil)` return is obtained exactly under the precondition
that `GetAddress` succeeds on that side. -/
theorem claim10_must_get_address (c : ChainPair) (o : StepOracle) (ord : ChanOrder)
    (su du : List Header) (sC dC sL dL : QueryChannelResponse) (hs hd : Nat)
    (hv : o.validatePathsErr = none) (hn : o.newSyncHeadersErr = none)
    (hr : retryDo o.setupAtt o.setupUpd = .okHeaders su du)
    (hq : o.queryPinned = .ok (sC, dC))
    (hsh : o.srcLatestHeight = .ok hs) (hdh : o.dstLatestHeight = .ok hd)
    (hql : o.queryLatest = .ok (sL, dL))
    (h1 : sC.channel.state = sL.channel.state) (h2 : dC.channel.state = dL.channel.state)
    (hT : inHandshakeTable sC.channel.state dC.channel.state = true) :
    (∀ e, (if tableSignerIsSrc sC.channel.state dC.channel.state then c.src
           else c.dst).addressResult = .error e →
      createChannelStepV0 c o ord = .fatal e ∧ createChannelStepV1 c o ord = .fatal e) ∧
    (∀ a, (if tableSignerIsSrc sC.channel.state dC.channel.state then c.src
           else c.dst).addressResult = .ok a →
      (∃ m, createChannelStepV0 c o ord = .ok m) ∧
      (∃ m, createChannelStepV1 c o ord = .ok m)) := by
  constructor
  · intro e he
    rw [createChannelStepV0_dispatch c o ord su du sC dC sL dL hs hd hv hn hr hq hsh hdh hql h1 h2,
      createChannelStepV1_dispatch c o ord su du sC dC hv hn hr hq]
    exact ⟨dispatch_fatal_signer c su du sC dC NewRelayMsgs e hT he,
      dispatch_fatal_signer c su du sC dC NewRelayMsgs e hT he⟩
  · intro a ha
    rw [createChannelStepV0_dispatch c o ord su du sC dC sL dL hs hd hv hn hr hq hsh hdh hql h1 h2,
      createChannelStepV1_dispatch c o ord su du sC dC hv hn hr hq]
    exact ⟨dispatch_ok_signer c su du sC dC NewRelayMsgs a hT ha,
      dispatch_ok_signer c su du sC dC NewRelayMsgs a hT ha⟩

/-- A chain pair whose src signer address cannot be obtained. -/
def pairNoAddrEx : ChainPair :=
  { src := { chainID := "ibc0", path := pathEx1, addressResult := .error "no key" },
    dst := { chainID := "ibc1", path := pathEx2, addressResult := .ok "addr1" } }

/-- Closed instantiation of C10: at (UNINITIALIZED, UNINITIALIZED) with a
failing src `GetAddress`, both variants abort with that error. -/
theorem claim10_must_get_address_witness :
    createChannelStepV0 pairNoAddrEx (oracleEx .UNINITIALIZED .UNINITIALIZED) .UNORDERED =
      .fatal "no key" ∧
    createChannelStepV1 pairNoAddrEx (oracleEx .UNINITIALIZED .UNINITIALIZED) .UNORDERED =
      .fatal "no key" :=
  (claim10_must_get_address pairNoAddrEx (oracleEx .UNINITIALIZED .UNINITIALIZED) .UNORDERED
    [3] [4] (qcr .UNINITIALIZED) (qcr .UNINITIALIZED) (qcr .UNINITIALIZED) (qcr .UNINITIALIZED)
    100 200 rfl rfl rfl rfl rfl rfl rfl rfl rfl rfl).1 "no key" rfl

/-- Appending a final message leaves a side non-empty. -/
theorem isEmpty_append_singleton (xs : List Msg) (x : Msg) : (xs ++ [x]).isEmpty = false := by
  cases xs <;> rfl

/-- Every batch the dispatch returns carries at least one message, so it is
ready. -/
theorem channelHandshakeDispatch_ok_ready (c : ChainPair) (su du : List Header)
    (sC dC : QueryChannelResponse) (m : RelayMsgs)
    (hok : channelHandshakeDispatch c su du sC dC NewRelayMsgs = .ok m) :
    m.Ready = true := by
  unfold channelHandshakeDispatch at hok
  repeat' split at hok
  all_goals
    first
    | ((try dsimp only at hok); injection hok with h; subst h;
        simp [RelayMsgs.Ready, isEmpty_append_singleton])
    | injection hok

/-- The V1 evaluator never returns a not-ready batch: every ordinary return
comes out of the dispatch, which always emits at least one message. -/
theorem createChannelStepV1_ok_ready (c : ChainPair) (o : StepOracle) (ord : ChanOrder)
    (m : RelayMsgs) (hok : createChannelStepV1 c o ord = .ok m) : m.Ready = true := by
  simp only [createChannelStepV1] at hok
  repeat' split at hok
  all_goals
    first
    | injection hok
    | exact channelHandshakeDispatch_ok_ready c _ _ _ _ m hok

/-- A trace of all-not-ready evaluations leaves the V0 loop waiting. -/
theorem chanLoopV0_allNotReady (c : ChainPair) (ord : ChanOrder) :
    ∀ (ts : List Tick) (f : Nat),
      (∀ t ∈ ts, ∃ m, createChannelStepV0 c t.oracle ord = .ok m ∧ m.Ready = false) →
      chanLoopV0 c ord f ts = .pending
  | [], f, _ => by simp [chanLoopV0]
  | t :: rest, f, h => by
    obtain ⟨m, hstep, hready⟩ := h t (List.mem_cons_self t rest)
    have ih := chanLoopV0_allNotReady c ord rest f fun u hu => h u (List.mem_cons_of_mem t hu)
    simp [chanLoopV0, hstep, hready, ih]

/-- C3: a tick on which the evaluator returns a not-ready batch causes the V0
driver to submit nothing and keep looping with unchanged state, so a trace of
only such ticks leaves the driver still running (it never returns); and under
the V1 evaluator an ordinary return is always a ready batch, so a not-ready
tick never arises there at all. -/
theorem claim3_not_ready :
    (∀ (c : ChainPair) (ord : ChanOrder) (f : Nat) (t : Tick) (rest : List Tick)
        (m : RelayMsgs),
       createChannelStepV0 c t.oracle ord = .ok m → m.Ready = false →
         chanLoopV0 c ord f (t :: rest) = chanLoopV0 c ord f rest) ∧
    (∀ (c : ChainPair) (b : Bool) (ts : List Tick),
       (∀ t ∈ ts, ∃ m,
          createChannelStepV0 c t.oracle
            (if b then ChanOrder.ORDERED else ChanOrder.UNORDERED) = .ok m ∧
          m.Ready = false) →
       CreateChannelV0 c b ts = .pending) ∧
    (∀ (c : ChainPair) (o : StepOracle) (ord : ChanOrder) (m : RelayMsgs),
       createChannelStepV1 c o ord = .ok m → m.Ready = true) := by
  refine ⟨?_, ?_, ?_⟩
  · intro c ord f t rest m hstep hready
    simp [chanLoopV0, hstep, hready]
  · intro c b ts h
    exact chanLoopV0_allNotReady c (if b then ChanOrder.ORDERED else ChanOrder.UNORDERED) ts 0 h
  · exact createChannelStepV1_ok_ready

/-- Closed instantiation of C3: a tick observing an in-transition src state
yields a not-ready batch and the V0 driver is still running after it. -/
theorem claim3_not_ready_witness :
    CreateChannelV0 pairEx true [⟨oracleMismEx, true⟩] = .pending := by
  refine claim3_not_ready.2.1 pairEx true _ ?_
  intro t ht
  rcases List.mem_singleton.mp ht with rfl
  exact ⟨NewRelayMsgs, rfl, rfl⟩

/-- Mapping the successor over an optional index preserves definedness. -/
theorem isSome_map_succ (o : Option Nat) : (o.map (· + 1)).isSome = o.isSome := by
  cases o <;> rfl

/-- On classified traces, the V0 loop returns the terminal counter error
exactly when the spec-side failure policy of §4.3 terminates. -/
theorem chanLoopV0_failed_iff (c : ChainPair) (ord : ChanOrder) :
    ∀ (ts : List Tick) (f : Nat),
      (chanLoopV0 c ord f ts = .failed (chanFailedErrV0 c) ↔
        (specFailIndex f (ts.map (classifyV0 c ord))).isSome)
  | [], f => by simp [chanLoopV0, specFailIndex]
  | t :: rest, f => by
    have ih0 := chanLoopV0_failed_iff c ord rest 0
    have ihf := chanLoopV0_failed_iff c ord rest f
    have ihf1 := chanLoopV0_failed_iff c ord rest (f + 1)
    cases hstep : createChannelStepV0 c t.oracle ord with
    | fatal m =>
      simp [chanLoopV0, specFailIndex, classifyV0, classifyTick, hstep]
    | stepErr e =>
      simp [chanLoopV0, specFailIndex, classifyV0, classifyTick, hstep]
    | ok m =>
      cases hready : m.Ready with
      | false =>
        simpa [chanLoopV0, specFailIndex, classifyV0, classifyTick, hstep, hready,
          isSome_map_succ] using ihf
      | true =>
        cases hsucc : t.sendSuccess with
        | true =>
          cases hlast : m.Last with
          | true =>
            simp [chanLoopV0, specFailIndex, classifyV0, classifyTick, hstep, hready,
              hsucc, hlast, RelayMsgs.Send, RelayMsgs.Success]
          | false =>
            simpa [chanLoopV0, specFailIndex, classifyV0, classifyTick, hstep, hready,
              hsucc, hlast, RelayMsgs.Send, RelayMsgs.Success, isSome_map_succ] using ih0
        | false =>
          by_cases hcap : f + 1 > 2
          · simp [chanLoopV0, specFailIndex, classifyV0, classifyTick, hstep, hready,
              hsucc, RelayMsgs.Send, RelayMsgs.Success, hcap]
          · simpa [chanLoopV0, specFailIndex, classifyV0, classifyTick, hstep, hready,
              hsucc, RelayMsgs.Send, RelayMsgs.Success, hcap, isSome_map_succ] using ihf1

/-- The analogue for the V1 loop: its not-ready exit ends the run without the
terminal counter error. -/
theorem chanLoopV1_failed_iff (c : ChainPair) (ord : ChanOrder) :
    ∀ (ts : List Tick) (f : Nat),
      (chanLoopV1 c ord f ts = .failed (chanFailedErrV1 c) ↔
        (specFailIndexBreak f (ts.map (classifyV1 c ord))).isSome)
  | [], f => by simp [chanLoopV1, specFailIndexBreak]
  | t :: rest, f => by
    have ih0 := chanLoopV1_failed_iff c ord rest 0
    have ihf1 := chanLoopV1_failed_iff c ord rest (f + 1)
    cases hstep : createChannelStepV1 c t.oracle ord with
    | fatal m =>
      simp [chanLoopV1, specFailIndexBreak, classifyV1, classifyTick, hstep]
    | stepErr e =>
      simp [chanLoopV1, specFailIndexBreak, classifyV1, classifyTick, hstep]
    | ok m =>
      cases hready : m.Ready with
      | false =>
        simp [chanLoopV1, specFailIndexBreak, classifyV1, classifyTick, hstep, hready]
      | true =>
        cases hsucc : t.sendSuccess with
        | true =>
          cases hlast : m.Last with
          | true =>
            simp [chanLoopV1, specFailIndexBreak, classifyV1, classifyTick, hstep, hready,
              hsucc, hlast, RelayMsgs.Send, RelayMsgs.Success]
          | false =>
            simpa [chanLoopV1, specFailIndexBreak, classifyV1, classifyTick, hstep, hready,
              hsucc, hlast, RelayMsgs.Send, RelayMsgs.Success, isSome_map_succ] using ih0
        | false =>
          by_cases hcap : f + 1 > 2
          · simp [chanLoopV1, specFailIndexBreak, classifyV1, classifyTick, hstep, hready,
              hsucc, RelayMsgs.Send, RelayMsgs.Success, hcap]
          · simpa [chanLoopV1, specFailIndexBreak, classifyV1, classifyTick, hstep, hready,
              hsucc, RelayMsgs.Send, RelayMsgs.Success, hcap, isSome_map_succ] using ihf1

/-- When the spec-side policy terminates at index k, the V0 loop already
returns the terminal error on the trace truncated right after tick k: the
driver never consults ticks after the 3rd consecutive failure. -/
theorem chanLoopV0_take (c : ChainPair) (ord : ChanOrder) :
    ∀ (ts : List Tick) (f k : Nat),
      specFailIndex f (ts.map (classifyV0 c ord)) = some k →
      chanLoopV0 c ord f (ts.take (k + 1)) = .failed (chanFailedErrV0 c)
  | [], f, k => by simp [specFailIndex]
  | t :: rest, f, k => by
    intro hk
    cases hstep : createChannelStepV0 c t.oracle ord with
    | fatal m =>
      simp [specFailIndex, classifyV0, classifyTick, hstep] at hk
    | stepErr e =>
      simp [specFailIndex, classifyV0, classifyTick, hstep] at hk
    | ok m =>
      cases hready : m.Ready with
      | false =>
        simp [specFailIndex, classifyV0, classifyTick, hstep, hready] at hk
        obtain ⟨k2, hk2, hk3⟩ := hk
        subst hk3
        have ih := chanLoopV0_take c ord rest f k2 hk2
        simp [chanLoopV0, hstep, hready, ih]
      | true =>
        cases hsucc : t.sendSuccess with
        | true =>
          cases hlast : m.Last with
          | true =>
            simp [specFailIndex, classifyV0, classifyTick, hstep, hready, hsucc, hlast,
              RelayMsgs.Send, RelayMsgs.Success] at hk
          | false =>
            simp [specFailIndex, classifyV0, classifyTick, hstep, hready, hsucc, hlast,
              RelayMsgs.Send, RelayMsgs.Success] at hk
            obtain ⟨k2, hk2, hk3⟩ := hk
            subst hk3
            have ih := chanLoopV0_take c ord rest 0 k2 hk2
            simp [chanLoopV0, hstep, hready, hsucc, hlast,
              RelayMsgs.Send, RelayMsgs.Success, ih]
        | false =>
          by_cases hcap : f + 1 > 2
          · simp [specFailIndex, classifyV0, classifyTick, hstep, hready, hsucc,
              RelayMsgs.Send, RelayMsgs.Success, hcap] at hk
            have hk0 : k = 0 := by omega
            subst hk0
            simp [chanLoopV0, hstep, hready, hsucc,
              RelayMsgs.Send, RelayMsgs.Success, hcap]
          · simp [specFailIndex, classifyV0, classifyTick, hstep, hready, hsucc,
              RelayMsgs.Send, RelayMsgs.Success, hcap] at hk
            obtain ⟨k2, hk2, hk3⟩ := hk
            subst hk3
            have ih := chanLoopV0_take c ord rest (f + 1) k2 hk2
            simp [chanLoopV0, hstep, hready, hsucc,
              RelayMsgs.Send, RelayMsgs.Success, hcap, ih]

/-- C4: the failure counter starts at zero; a successful non-final submission
resets it to zero; a failed submission increments it, with the driver
continuing while the incremented counter is at most 2 and returning the
terminal error exactly when it exceeds 2 (the 3rd consecutive submission
failure); globally, the driver returns the terminal error exactly when the
spec-side §4.3 policy terminates on the classified trace, already on the
trace truncated at that tick; the V1 loop satisfies the same global law with
its not-ready exit treated as a run-ending outcome. -/
theorem claim4_failure_counter :
    (∀ (c : ChainPair) (b : Bool) (ts : List Tick),
       CreateChannelV0 c b ts =
         chanLoopV0 c (if b then ChanOrder.ORDERED else ChanOrder.UNORDERED) 0 ts) ∧
    (∀ (c : ChainPair) (ord : ChanOrder) (f : Nat) (t : Tick) (rest : List Tick)
        (m : RelayMsgs),
       createChannelStepV0 c t.oracle ord = .ok m → m.Ready = true →
       t.sendSuccess = true → m.Last = false →
         chanLoopV0 c ord f (t :: rest) = chanLoopV0 c ord 0 rest) ∧
    (∀ (c : ChainPair) (ord : ChanOrder) (f : Nat) (t : Tick) (rest : List Tick)
        (m : RelayMsgs),
       createChannelStepV0 c t.oracle ord = .ok m → m.Ready = true →
       t.sendSuccess = false → f + 1 ≤ 2 →
         chanLoopV0 c ord f (t :: rest) = chanLoopV0 c ord (f + 1) rest) ∧
    (∀ (c : ChainPair) (ord : ChanOrder) (f : Nat) (t : Tick) (rest : List Tick)
        (m : RelayMsgs),
       createChannelStepV0 c t.oracle ord = .ok m → m.Ready = true →
       t.sendSuccess = false → f + 1 > 2 →
         chanLoopV0 c ord f (t :: rest) = .failed (chanFailedErrV0 c)) ∧
    (∀ (c : ChainPair) (ord : ChanOrder) (ts : List Tick),
       (chanLoopV0 c ord 0 ts = .failed (chanFailedErrV0 c) ↔
         (specFailIndex 0 (ts.map (classifyV0 c ord))).isSome)) ∧
    (∀ (c : ChainPair) (ord : ChanOrder) (ts : List Tick) (k : Nat),
       specFailIndex 0 (ts.map (classifyV0 c ord)) = some k →
         chanLoopV0 c ord 0 (ts.take (k + 1)) = .failed (chanFailedErrV0 c)) ∧
    (∀ (c : ChainPair) (ord : ChanOrder) (ts : List Tick),
       (chanLoopV1 c ord 0 ts = .failed (chanFailedErrV1 c) ↔
         (specFailIndexBreak 0 (ts.map (classifyV1 c ord))).isSome)) := by
  refine ⟨?_, ?_, ?_, ?_, ?_, ?_, ?_⟩
  · intro c b ts; rfl
  · intro c ord f t rest m hstep hready hsucc hlast
    simp [chanLoopV0, hstep, hready, hsucc, hlast, RelayMsgs.Send, RelayMsgs.Success]
  · intro c ord f t rest m hstep hready hsucc hcap
    have hnc : ¬ (f + 1 > 2) := by omega
    simp [chanLoopV0, hstep, hready, hsucc, RelayMsgs.Send, RelayMsgs.Success, hnc]
  · intro c ord f t rest m hstep hready hsucc hcap
    simp [chanLoopV0, hstep, hready, hsucc, RelayMsgs.Send, RelayMsgs.Success, hcap]
  · intro c ord ts; exact chanLoopV0_failed_iff c ord ts 0
  · intro c ord ts k; exact chanLoopV0_take c ord ts 0 k
  · intro c ord ts; exact chanLoopV1_failed_iff c ord ts 0

/-- A tick whose evaluation emits `ChanOpenInit` and whose submission fails. -/
def tickFailEx : Tick :=
  { oracle := oracleEx .UNINITIALIZED .UNINITIALIZED, sendSuccess := false }

/-- Closed instantiation of C4: on three consecutive failed submissions the
V0 driver returns the terminal error, matching the spec-side policy. -/
theorem claim4_failure_counter_witness :
    chanLoopV0 pairEx ChanOrder.ORDERED 0 [tickFailEx, tickFailEx, tickFailEx] =
      .failed (chanFailedErrV0 pairEx) := by
  exact (claim4_failure_counter.2.2.2.2.1 pairEx ChanOrder.ORDERED
    [tickFailEx, tickFailEx, tickFailEx]).mpr rfl

/-- The V0 loop produces no terminal error value other than
`chanFailedErrV0`. -/
theorem chanLoopV0_failed_eq (c : ChainPair) (ord : ChanOrder) :
    ∀ (ts : List Tick) (f : Nat) (e : FmtError),
      chanLoopV0 c ord f ts = .failed e → e = chanFailedErrV0 c
  | [], f, e => by simp [chanLoopV0]
  | t :: rest, f, e => by
    intro h
    simp only [chanLoopV0] at h
    split at h
    · simp at h
    · simp at h
    · split at h
      · exact chanLoopV0_failed_eq c ord rest f e h
      · split at h
        · simp at h
        · split at h
          · exact chanLoopV0_failed_eq c ord rest 0 e h
          · split at h
            · injection h with h1; exact h1.symm
            · exact chanLoopV0_failed_eq c ord rest (f + 1) e h

/-- The V1 loop produces no terminal error value other than
`chanFailedErrV1`. -/
theorem chanLoopV1_failed_eq (c : ChainPair) (ord : ChanOrder) :
    ∀ (ts : List Tick) (f : Nat) (e : FmtError),
      chanLoopV1 c ord f ts = .failed e → e = chanFailedErrV1 c
  | [], f, e => by simp [chanLoopV1]
  | t :: rest, f, e => by
    intro h
    simp only [chanLoopV1] at h
    split at h
    · simp at h
    · simp at h
    · split at h
      · simp at h
      · split at h
        · simp at h
        · split at h
          · exact chanLoopV1_failed_eq c ord rest 0 e h
          · split at h
            · injection h with h1; exact h1.symm
            · exact chanLoopV1_failed_eq c ord rest (f + 1) e h

/-- C6 (amended): whenever the V0 driver loop terminates with the terminal
counter error, that error interpolates the chain ID, channel ID and port ID
of both sides; the V1 driver's terminal error instead interpolates the chain
ID, client ID and channel ID of both sides — it does not include the port
IDs. -/
theorem claim6_error_names :
    (∀ (c : ChainPair) (ord : ChanOrder) (f : Nat) (ts : List Tick) (e : FmtError),
       chanLoopV0 c ord f ts = .failed e →
         e = chanFailedErrV0 c ∧
         c.src.chainID ∈ e.args ∧ c.src.path.channelID ∈ e.args ∧
         c.src.path.portID ∈ e.args ∧ c.dst.chainID ∈ e.args ∧
         c.dst.path.channelID ∈ e.args ∧ c.dst.path.portID ∈ e.args) ∧
    (∀ (c : ChainPair) (ord : ChanOrder) (f : Nat) (ts : List Tick) (e : FmtError),
       chanLoopV1 c ord f ts = .failed e →
         e = chanFailedErrV1 c ∧
         c.src.chainID ∈ e.args ∧ c.src.path.clientID ∈ e.args ∧
         c.src.path.channelID ∈ e.args ∧ c.dst.chainID ∈ e.args ∧
         c.dst.path.clientID ∈ e.args ∧ c.dst.path.channelID ∈ e.args) := by
  constructor
  · intro c ord f ts e h
    obtain rfl := chanLoopV0_failed_eq c ord ts f e h
    refine ⟨rfl, ?_, ?_, ?_, ?_, ?_, ?_⟩ <;> simp [chanFailedErrV0]
  · intro c ord f ts e h
    obtain rfl := chanLoopV1_failed_eq c ord ts f e h
    refine ⟨rfl, ?_, ?_, ?_, ?_, ?_, ?_⟩ <;> simp [chanFailedErrV1]

/-- C6 as stated fails on the V1 driver: after three consecutive failed
submissions it returns a terminal error that does not contain either port ID
among its interpolated identifiers. -/
theorem claim6_cex :
    CreateChannelV1 pairEx true [tickFailEx, tickFailEx, tickFailEx] =
      .failed (chanFailedErrV1 pairEx) ∧
    pairEx.src.path.portID ∉ (chanFailedErrV1 pairEx).args ∧
    pairEx.dst.path.portID ∉ (chanFailedErrV1 pairEx).args :=
  ⟨rfl, by decide, by decide⟩

/-- Closed instantiation of the amended C6 on a concrete three-failure run. -/
theorem claim6_error_names_witness :
    pairEx.src.chainID ∈ (chanFailedErrV0 pairEx).args ∧
    pairEx.src.path.channelID ∈ (chanFailedErrV0 pairEx).args ∧
    pairEx.src.path.portID ∈ (chanFailedErrV0 pairEx).args ∧
    pairEx.dst.chainID ∈ (chanFailedErrV0 pairEx).args ∧
    pairEx.dst.path.channelID ∈ (chanFailedErrV0 pairEx).args ∧
    pairEx.dst.path.portID ∈ (chanFailedErrV0 pairEx).args :=
  (claim6_error_names.1 pairEx ChanOrder.ORDERED 0 [tickFailEx, tickFailEx, tickFailEx]
    (chanFailedErrV0 pairEx) rfl).2

/-- A strategy oracle whose calls all succeed. -/
def stratOracleOkEx : StrategyOracle :=
  { newSyncHeadersErr := none, unrelayedSequencesErr := none, relayPacketsErr := none }

/-- C8 evaluated on the code: a successful `RunStrategy` returns a handle
that sends on `doneChan` (channel 0), while both listener tasks it started
were handed no stop channel at all — the channel the handle sends on has no
receiver among the listeners, so invoking the handle signals neither task
(the send blocks forever). -/
theorem claim8_cancel_unwired :
    (RunStrategy pairEx.src pairEx.dst stratOracleOkEx).result =
      .ok { sendsOn := 0 } ∧
    ((RunStrategy pairEx.src pairEx.dst stratOracleOkEx).started.map
        ListenerTask.stopChannels) = [[], []] ∧
    (RunStrategy pairEx.src pairEx.dst stratOracleOkEx).started.length = 2 :=
  ⟨rfl, rfl, rfl⟩
